import Mathlib

/-!
Shallow embedding of the supply-chain dashboard core (`streamlit.py`):
the hardcoded snapshot (`parse_supply_chain_data`), the threshold
classifier (`analyze_critical_issues`), the executive-summary renderer
(`create_summary_report`) and the spreadsheet export
(`export_report_to_excel`).  Python machine arithmetic on the counts and
quantities is exact integer arithmetic; the two ratio computations are
Python float divisions, modelled here over `ℚ` (the rational model and
the IEEE-double computation agree on every value these theorems touch,
in particular at the exact thresholds 3/10 and 31/100 and on the builtin
snapshot).  A Python `ZeroDivisionError` that escapes a function is
modelled by the function returning `none`.
-/

namespace SupplyChain

/-! ## Data model (§3 of the spec, from the dict layouts in the source) -/

structure ProductionRecord where
  date : String
  planned_Qty : Int
  actual_Qty : Int
  variance : Int
  reason : String
deriving DecidableEq, Repr

structure CapacityRecord where
  department : String
  capacity : Int
  planned_Load : Int
  actual_Prod : Int
  utilization : Int
  mtd : Int
deriving DecidableEq, Repr

structure MrpOrder where
  order : String
  ordered : String
  available : String
  status : String
deriving DecidableEq, Repr

/-- One procurement bucket: a `Count` and a monetary `Amount` (millions). -/
structure Bucket where
  count : Int
  amount : ℚ
deriving DecidableEq, Repr

structure ProcurementData where
  po_Issued : Bucket
  po_Received : Bucket
  po_Pending : Bucket
deriving DecidableEq, Repr

structure PIStatus where
  total : Int
  received : Int
  approved : Int
  pending : Int
deriving DecidableEq, Repr

structure PaymentStatus where
  done : Int
  pending : Int
  total : Int
deriving DecidableEq, Repr

structure ShipmentStatus where
  may : Int
  june : Int
  july : Int
deriving DecidableEq, Repr

structure ImportData where
  pi : PIStatus
  payment : PaymentStatus
  shipment : ShipmentStatus
deriving DecidableEq, Repr

structure FGStock where
  elten : Int
  bata : Int
  sStep : Int
  total : Int
deriving DecidableEq, Repr

structure GRNStatus where
  total : Int
  done : Int
  pending : Int
deriving DecidableEq, Repr

structure WarehouseData where
  fg_Stock : FGStock
  grn : GRNStatus
deriving DecidableEq, Repr

/-- The six data domains returned by `parse_supply_chain_data`. -/
structure Snapshot where
  production : List ProductionRecord
  capacity : List CapacityRecord
  mrp : List MrpOrder
  procurement : ProcurementData
  imports : ImportData
  warehouse : WarehouseData
deriving DecidableEq, Repr

/-! ## String helpers modelling Python formatting -/

/-- Substring test on character lists: does the second list start with the first? -/
def startsWithL : List Char → List Char → Bool
  | [], _ => true
  | _ :: _, [] => false
  | a :: as, b :: bs => a == b && startsWithL as bs

/-- Substring occurrence test on character lists. -/
def containsL (pat : List Char) : List Char → Bool
  | [] => startsWithL pat []
  | c :: rest => startsWithL pat (c :: rest) || containsL pat rest

/-- Models Python `pat in s` / `str.contains` (the pattern used in the source
has no regex metacharacters, so pandas `str.contains` is a plain substring
test). -/
def strContains (s pat : String) : Bool :=
  containsL pat.toList s.toList

/-- Insert a comma after every third character of a reversed digit list. -/
def commaRev : List Char → List Char
  | a :: b :: c :: d :: rest => a :: b :: c :: ',' :: commaRev (d :: rest)
  | l => l

/-- Models Python `format(n, ',')` for a natural number: decimal digits in
groups of three separated by commas. -/
def natComma (n : Nat) : String :=
  String.mk (commaRev (toString n).toList.reverse).reverse

/-- Models Python `format(i, ',')` for a (possibly negative) integer. -/
def intComma (i : Int) : String :=
  if i < 0 then "-" ++ natComma i.natAbs else natComma i.natAbs

/-! Exact rational arithmetic, written through `Rat.divInt` so that every
computation reduces inside the kernel.  `qMul`, `qAdd` and `qDiv` are proved
equal to the ordinary `*`, `+` and `/` on `ℚ` below (`qMul_eq` etc.), so the
definitions that use them are the standard rational operations. -/

/-- Rational multiplication via `Rat.divInt` (equals `a * b`, see `qMul_eq`). -/
def qMul (a b : ℚ) : ℚ :=
  Rat.divInt (a.num * b.num) ((a.den : Int) * (b.den : Int))

/-- Rational addition via `Rat.divInt` (equals `a + b`, see `qAdd_eq`). -/
def qAdd (a b : ℚ) : ℚ :=
  Rat.divInt (a.num * (b.den : Int) + b.num * (a.den : Int)) ((a.den : Int) * (b.den : Int))

/-- Rational division via `Rat.divInt` (equals `a / b`, see `qDiv_eq`). -/
def qDiv (a b : ℚ) : ℚ :=
  Rat.divInt (a.num * (b.den : Int)) ((a.den : Int) * b.num)

/-- Floor of a rational as an integer (the denominator is positive). -/
def ratFloor (q : ℚ) : Int :=
  q.num.fdiv (q.den : Int)

/-- Models Python `format(x, '.1f')` on the exact rational value: one decimal
digit, rounding to nearest (the value `⌊q * 10 + 1 / 2⌋`, printed with a decimal
point).  Python rounds the underlying double half-to-even; no value appearing
in these theorems is a tie, and on all of them the two roundings agree. -/
def fmt1 (q : ℚ) : String :=
  let t : Int := ratFloor (qAdd (qMul q 10) (Rat.divInt 1 2))
  (if t < 0 then "-" else "") ++ toString (t.natAbs / 10) ++ "." ++ toString (t.natAbs % 10)

/-! ## `parse_supply_chain_data` (lines 70–134): the hardcoded snapshot -/

/-- The compiled-in snapshot built by `parse_supply_chain_data`. -/
def parse_supply_chain_data : Snapshot where
  production := [
    ⟨"10-Jun-2025", 800, 936, 136, "2 Lines loading"⟩,
    ⟨"11-Jun-2025", 800, 1180, 380, "2 Lines loading/material issue"⟩,
    ⟨"12-Jun-2025", 800, 650, -150, "Loading end/feeding issue"⟩,
    ⟨"13-Jun-2025", 2000, 0, -2000, "FEEDING ISSUE FROM CUTTING"⟩,
    ⟨"14-Jun-2025", 2000, 0, -2000, "FEEDING ISSUE FROM CUTTING"⟩,
    ⟨"16-Jun-2025", 2000, 393, -1607, "FEEDING ISSUE FROM CUTTING"⟩]
  capacity := [
    ⟨"Cutting", 3000, 1823, 1800, 60, 8763⟩,
    ⟨"Stitching", 2788, 0, 393, 14, 7974⟩,
    ⟨"Lasting", 3462, 0, 0, 0, 12100⟩]
  mrp := [
    ⟨"673", "Yes", "Yes", "Complete"⟩,
    ⟨"675", "Yes", "Yes", "Complete"⟩,
    ⟨"677", "Yes", "Yes", "Complete"⟩,
    ⟨"679", "No", "No", "Critical"⟩,
    ⟨"680", "Yes", "No", "Pending"⟩,
    ⟨"681", "No", "No", "Critical"⟩]
  procurement :=
    ⟨⟨92, Rat.divInt 11477 100⟩, ⟨56, Rat.divInt 9684 100⟩, ⟨36, Rat.divInt 1793 100⟩⟩
  imports := ⟨⟨12, 12, 12, 0⟩, ⟨3, 4, 7⟩, ⟨1, 8, 1⟩⟩
  warehouse := ⟨⟨1090, 0, 1500, 2590⟩, ⟨4, 4, 0⟩⟩

/-! ## `analyze_critical_issues` (lines 137–174) -/

/-- `prod_df['Variance'].sum()` (line 145). -/
def total_variance (prod : List ProductionRecord) : Int :=
  (prod.map (fun r => r.variance)).sum

/-- The production-shortfall rule (lines 146–147). -/
def shortfallIssues (prod : List ProductionRecord) : List String :=
  if total_variance prod < -3000 then
    ["🚨 CRITICAL: Production shortfall of " ++ natComma (total_variance prod).natAbs ++ " units"]
  else []

/-- `prod_df[prod_df['Reason'].str.contains('FEEDING ISSUE', na=False)]` (line 150). -/
def feeding_issues (prod : List ProductionRecord) : List ProductionRecord :=
  prod.filter (fun r => strContains r.reason "FEEDING ISSUE")

/-- The feeding-issue rule (lines 151–152). -/
def feedingIssueMsgs (prod : List ProductionRecord) : List String :=
  if 3 ≤ (feeding_issues prod).length then
    ["🔥 CRITICAL: " ++ toString (feeding_issues prod).length ++ " days of feeding issues from cutting"]
  else []

/-- The critical capacity message (line 158). -/
def capacityCriticalMsg (r : CapacityRecord) : String :=
  "⚠️ CRITICAL: " ++ r.department ++ " capacity at " ++ toString r.utilization ++ "%"

/-- The high capacity message (line 160). -/
def capacityHighMsg (r : CapacityRecord) : String :=
  "🔶 HIGH: " ++ r.department ++ " underutilized at " ++ toString r.utilization ++ "%"

/-- The per-department capacity loop (lines 156–160): each row appends to the
critical list when utilization < 20, else to the high list when < 40. -/
def capacityIssues : List CapacityRecord → List String × List String
  | [] => ([], [])
  | r :: rest =>
    let p := capacityIssues rest
    if r.utilization < 20 then (capacityCriticalMsg r :: p.1, p.2)
    else if r.utilization < 40 then (p.1, capacityHighMsg r :: p.2)
    else p

/-- `mrp_df[mrp_df['Status'] == 'Critical']` (line 164). -/
def critical_orders (mrp : List MrpOrder) : List MrpOrder :=
  mrp.filter (fun o => o.status == "Critical")

/-- The MRP rule (lines 165–166). -/
def mrpHighMsgs (mrp : List MrpOrder) : List String :=
  if 0 < (critical_orders mrp).length then
    ["📋 HIGH: " ++ toString (critical_orders mrp).length ++ " orders with material unavailability"]
  else []

/-- The procurement rule (lines 170–172).  `PO_Pending.Count / PO_Issued.Count`
is an unguarded Python division: with `Issued.Count = 0` it raises
`ZeroDivisionError`, modelled as `none`. -/
def pendingMediumMsgs (proc : ProcurementData) : Option (List String) :=
  if proc.po_Issued.count = 0 then none
  else
    let r : ℚ := qDiv (proc.po_Pending.count : ℚ) (proc.po_Issued.count : ℚ)
    some (if Rat.divInt 3 10 < r then
      ["📦 MEDIUM: " ++ fmt1 (qMul r 100) ++ "% of POs pending"] else [])

/-- `analyze_critical_issues` (lines 137–174): the three severity lists, or
`none` when the unguarded pending-ratio division raises. -/
def analyze_critical_issues (data : Snapshot) :
    Option (List String × List String × List String) :=
  let cap := capacityIssues data.capacity
  let critical_issues :=
    shortfallIssues data.production ++ feedingIssueMsgs data.production ++ cap.1
  let high_issues := cap.2 ++ mrpHighMsgs data.mrp
  match pendingMediumMsgs data.procurement with
  | none => none
  | some medium_issues => some (critical_issues, high_issues, medium_issues)

/-! ## `create_summary_report` (lines 226–257) -/

/-- The fractional decimal digits of a nonnegative rational, at most `fuel`
many (used to model Python `str` on a float; every amount in the snapshot has
a short finite decimal expansion). -/
def fracDigits : Nat → ℚ → List Char
  | 0, _ => []
  | fuel + 1, q =>
    if q = 0 then []
    else
      let q10 := qMul q 10
      let d := ratFloor q10
      Char.ofNat (48 + d.toNat) :: fracDigits fuel (qAdd q10 (Rat.divInt (-d) 1))

/-- Models Python `str` of a nonnegative float value: integer part, a decimal
point, and the fractional digits (at least one, Python prints `5.0` for `5`). -/
def pyFloatStrNN (q : ℚ) : String :=
  let ip := ratFloor q
  let ds := fracDigits 17 (qAdd q (Rat.divInt (-ip) 1))
  toString ip.toNat ++ "." ++ (if ds.isEmpty then "0" else String.mk ds)

/-- Models Python `str` of a float value. -/
def pyFloatStr (q : ℚ) : String :=
  if q < 0 then "-" ++ pyFloatStrNN (Rat.divInt (-q.num) (q.den : Int))
  else pyFloatStrNN q

/-- Models `x / y * 100` formatted with `:.1f` where `x` and `y` are pandas
(numpy int64) column sums: numpy division by zero yields `inf`/`nan` (with a
runtime warning) instead of raising, and Python formats those as
`"inf"`/`"nan"`. -/
def npPctStr (x y : Int) : String :=
  if y = 0 then (if x = 0 then "nan" else if 0 < x then "inf" else "-inf")
  else fmt1 (qMul (qDiv (x : ℚ) (y : ℚ)) 100)

/-- Models `df['Utilization'].mean()` formatted with `:.1f`: the mean of an
empty column is numpy `nan`, formatted as `"nan"`. -/
def npMeanStr (l : List Int) : String :=
  if l.length = 0 then "nan"
  else fmt1 (qDiv (l.sum : ℚ) ((l.length : Int) : ℚ))

/-- The `- {issue}\n` lines appended for each issue (lines 234–235, 240–241). -/
def issueLines (issues : List String) : String :=
  (issues.map (fun i => "- " ++ i ++ "\n")).foldl (fun a b => a ++ b) ""

/-- The KEY METRICS and RECOMMENDATIONS tail of the report (lines 243–256),
which depends only on the snapshot.  Evaluated only when
`po_Issued.count ≠ 0`; the caller guards it. -/
def keyMetricsText (data : Snapshot) : String :=
  "\n## 📋 KEY METRICS\n- **Production Efficiency:** "
  ++ npPctStr (data.production.map (fun r => r.actual_Qty)).sum
       (data.production.map (fun r => r.planned_Qty)).sum
  ++ "%\n- **Total Production Variance:** " ++ intComma (total_variance data.production)
  ++ " units\n- **Average Capacity Utilization:** "
  ++ npMeanStr (data.capacity.map (fun r => r.utilization))
  ++ "%\n- **PO Completion Rate:** "
  ++ fmt1 (qMul (qDiv (data.procurement.po_Received.count : ℚ)
       (data.procurement.po_Issued.count : ℚ)) 100)
  ++ "%\n- **Total FG Inventory:** " ++ intComma data.warehouse.fg_Stock.total
  ++ " pairs\n\n## 🔄 RECOMMENDATIONS\n1. **URGENT:** Address feeding issues from cutting department\n2. **HIGH:** Increase stitching and lasting capacity utilization\n3. **MEDIUM:** Expedite pending material orders (679, 681)\n4. **MEDIUM:** Follow up on "
  ++ toString data.procurement.po_Pending.count ++ " pending POs worth pkr"
  ++ pyFloatStr data.procurement.po_Pending.amount ++ "M\n"

/-- `create_summary_report` (lines 226–257).  `now` stands for
`datetime.now().strftime('%d-%b-%Y %H:%M')`, the only non-deterministic input.
The PO-completion-rate KPI divides two plain Python ints, so a snapshot with
`PO_Issued.Count = 0` raises `ZeroDivisionError`, modelled as `none`.  The
`medium_issues` argument is accepted but never used, exactly as in the source. -/
def create_summary_report (data : Snapshot)
    (critical_issues high_issues medium_issues : List String) (now : String) :
    Option String :=
  if data.procurement.po_Issued.count = 0 then none
  else
    some
      (("\n# 📊 SUPPLY CHAIN EXECUTIVE SUMMARY\n**Report Date:** " ++ now
        ++ "\n\n## 🚨 CRITICAL ALERTS (" ++ toString critical_issues.length ++ ")\n"
        ++ issueLines critical_issues
        ++ "\n## ⚠️ HIGH PRIORITY (" ++ toString high_issues.length ++ ")\n"
        ++ issueLines high_issues)
      ++ keyMetricsText data)

/-! ## `export_report_to_excel` (lines 260–291) -/

/-- A spreadsheet cell: a string, an integer, or a float (exact rational)
value, as written by `to_excel`. -/
inductive Cell where
  | s : String → Cell
  | i : Int → Cell
  | q : ℚ → Cell
deriving DecidableEq, Repr

/-- A sheet is a header row followed by data rows. -/
abbrev Sheet := List (List Cell)

/-- Column headers of the Production sheet (the DataFrame's dict-key order). -/
def productionHeader : List Cell :=
  [Cell.s "Date", Cell.s "Planned_Qty", Cell.s "Actual_Qty", Cell.s "Variance", Cell.s "Reason"]

/-- One Production sheet row (line 270). -/
def productionRow (r : ProductionRecord) : List Cell :=
  [Cell.s r.date, Cell.i r.planned_Qty, Cell.i r.actual_Qty, Cell.i r.variance, Cell.s r.reason]

/-- The Production sheet (line 270). -/
def productionSheet (prod : List ProductionRecord) : Sheet :=
  productionHeader :: prod.map productionRow

/-- Column headers of the Capacity sheet. -/
def capacityHeader : List Cell :=
  [Cell.s "Department", Cell.s "Capacity", Cell.s "Planned_Load", Cell.s "Actual_Prod",
   Cell.s "Utilization", Cell.s "MTD"]

/-- One Capacity sheet row (line 271). -/
def capacityRow (r : CapacityRecord) : List Cell :=
  [Cell.s r.department, Cell.i r.capacity, Cell.i r.planned_Load, Cell.i r.actual_Prod,
   Cell.i r.utilization, Cell.i r.mtd]

/-- The Capacity sheet (line 271). -/
def capacitySheet (cap : List CapacityRecord) : Sheet :=
  capacityHeader :: cap.map capacityRow

/-- Column headers of the MRP sheet. -/
def mrpHeader : List Cell :=
  [Cell.s "Order", Cell.s "Ordered", Cell.s "Available", Cell.s "Status"]

/-- One MRP sheet row (line 272). -/
def mrpRow (o : MrpOrder) : List Cell :=
  [Cell.s o.order, Cell.s o.ordered, Cell.s o.available, Cell.s o.status]

/-- The MRP sheet (line 272). -/
def mrpSheet (mrp : List MrpOrder) : Sheet :=
  mrpHeader :: mrp.map mrpRow

/-- The Procurement sheet (lines 275–280): three fixed rows of
status label, count and amount. -/
def procurementSheet (proc : ProcurementData) : Sheet :=
  [[Cell.s "Status", Cell.s "Count", Cell.s "Amount (M)"],
   [Cell.s "PO Issued", Cell.i proc.po_Issued.count, Cell.q proc.po_Issued.amount],
   [Cell.s "PO Received", Cell.i proc.po_Received.count, Cell.q proc.po_Received.amount],
   [Cell.s "PO Pending", Cell.i proc.po_Pending.count, Cell.q proc.po_Pending.amount]]

/-- The Warehouse sheet (lines 283–289): only the four FG_Stock brand rows;
the GRN counts are not written. -/
def warehouseSheet (wh : WarehouseData) : Sheet :=
  [[Cell.s "Brand", Cell.s "Stock (Pairs)"],
   [Cell.s "Elten", Cell.i wh.fg_Stock.elten],
   [Cell.s "Bata", Cell.i wh.fg_Stock.bata],
   [Cell.s "S-Step", Cell.i wh.fg_Stock.sStep],
   [Cell.s "Total", Cell.i wh.fg_Stock.total]]

/-- `export_report_to_excel` (lines 260–291): the named sheets of the workbook,
in the order written.  Neither the `imports` domain nor the warehouse GRN
counts appear anywhere in it. -/
def export_report_to_excel (data : Snapshot) (summary_report : String) :
    List (String × Sheet) :=
  [("Executive Summary", [[Cell.s "Executive Summary"], [Cell.s summary_report]]),
   ("Production", productionSheet data.production),
   ("Capacity", capacitySheet data.capacity),
   ("MRP", mrpSheet data.mrp),
   ("Procurement", procurementSheet data.procurement),
   ("Warehouse", warehouseSheet data.warehouse)]

/-! Readers for the round-trip property of §8 of the spec ("exporting a
Snapshot and re-reading the per-domain sheets must reproduce every field of
every record").  The repository has no re-reading code, so these follow the
spec's words: parse a sheet back into the domain records. -/

/-- Generic row-by-row sheet body reader. -/
def readRows {α : Type} (f : List Cell → Option α) : List (List Cell) → Option (List α)
  | [] => some []
  | r :: rs =>
    match f r, readRows f rs with
    | some a, some as => some (a :: as)
    | _, _ => none

/-- Re-read one Production row. -/
def readProductionRow : List Cell → Option ProductionRecord
  | [Cell.s d, Cell.i p, Cell.i a, Cell.i v, Cell.s rsn] => some ⟨d, p, a, v, rsn⟩
  | _ => none

/-- Re-read the Production sheet. -/
def readProductionSheet : Sheet → Option (List ProductionRecord)
  | [] => none
  | header :: rows =>
    if header = productionHeader then readRows readProductionRow rows else none

/-- Re-read one Capacity row. -/
def readCapacityRow : List Cell → Option CapacityRecord
  | [Cell.s d, Cell.i c, Cell.i pl, Cell.i ap, Cell.i u, Cell.i m] =>
    some ⟨d, c, pl, ap, u, m⟩
  | _ => none

/-- Re-read the Capacity sheet. -/
def readCapacitySheet : Sheet → Option (List CapacityRecord)
  | [] => none
  | header :: rows =>
    if header = capacityHeader then readRows readCapacityRow rows else none

/-- Re-read one MRP row. -/
def readMrpRow : List Cell → Option MrpOrder
  | [Cell.s o, Cell.s od, Cell.s av, Cell.s st] => some ⟨o, od, av, st⟩
  | _ => none

/-- Re-read the MRP sheet. -/
def readMrpSheet : Sheet → Option (List MrpOrder)
  | [] => none
  | header :: rows => if header = mrpHeader then readRows readMrpRow rows else none

/-- Re-read the Procurement sheet back into the three buckets. -/
def readProcurementSheet : Sheet → Option ProcurementData
  | [[Cell.s "Status", Cell.s "Count", Cell.s "Amount (M)"],
     [Cell.s "PO Issued", Cell.i ic, Cell.q ia],
     [Cell.s "PO Received", Cell.i rc, Cell.q ra],
     [Cell.s "PO Pending", Cell.i pc, Cell.q pa]] =>
    some ⟨⟨ic, ia⟩, ⟨rc, ra⟩, ⟨pc, pa⟩⟩
  | _ => none

/-- Re-read the Warehouse sheet back into the FG stock figures (the only
warehouse data the export contains). -/
def readWarehouseSheet : Sheet → Option FGStock
  | [[Cell.s "Brand", Cell.s "Stock (Pairs)"],
     [Cell.s "Elten", Cell.i e],
     [Cell.s "Bata", Cell.i b],
     [Cell.s "S-Step", Cell.i ss],
     [Cell.s "Total", Cell.i t]] => some ⟨e, b, ss, t⟩
  | _ => none

/-! ## Concrete inputs used by witnesses and counterexamples -/

/-- The builtin snapshot with `PO_Issued.Count` set to 0. -/
def zeroIssuedSnapshot : Snapshot :=
  { parse_supply_chain_data with
    procurement := { parse_supply_chain_data.procurement with po_Issued := ⟨0, 0⟩ } }

/-- The builtin snapshot with the production table replaced by a single day
whose variance is exactly −3000. -/
def shortfallSnapA : Snapshot :=
  { parse_supply_chain_data with production := [⟨"17-Jun-2025", 3000, 0, -3000, "halt"⟩] }

/-- The builtin snapshot with the production table replaced by a single day
whose variance is exactly −3001. -/
def shortfallSnapB : Snapshot :=
  { parse_supply_chain_data with production := [⟨"17-Jun-2025", 3001, 0, -3001, "halt"⟩] }

/-- Procurement figures with pending/issued exactly 3/10. -/
def procurementAtPoint3 : ProcurementData := ⟨⟨10, 0⟩, ⟨0, 0⟩, ⟨3, 0⟩⟩

/-- Procurement figures with pending/issued exactly 31/100. -/
def procurementAtPoint31 : ProcurementData := ⟨⟨100, 0⟩, ⟨0, 0⟩, ⟨31, 0⟩⟩

/-- The builtin snapshot with every `Ordered`/`Available` flag scrambled but
each order's id and `Status` unchanged. -/
def flagsVariantSnapshot : Snapshot :=
  { parse_supply_chain_data with mrp := [
      ⟨"673", "No", "No", "Complete"⟩,
      ⟨"675", "Yes", "Yes", "Complete"⟩,
      ⟨"677", "Yes", "No", "Complete"⟩,
      ⟨"679", "Yes", "Yes", "Critical"⟩,
      ⟨"680", "No", "Yes", "Pending"⟩,
      ⟨"681", "Yes", "No", "Critical"⟩] }

/-- The builtin snapshot with different import-status figures and different
warehouse GRN counts (everything the export omits). -/
def importsVariantSnapshot : Snapshot :=
  { parse_supply_chain_data with
    imports := ⟨⟨13, 12, 12, 1⟩, ⟨3, 4, 7⟩, ⟨1, 8, 1⟩⟩,
    warehouse := ⟨⟨1090, 0, 1500, 2590⟩, ⟨5, 4, 1⟩⟩ }

/-! ## Helper lemmas shared by the claim theorems -/

/-- `qMul` is ordinary rational multiplication. -/
theorem qMul_eq (a b : ℚ) : qMul a b = a * b := by
  rw [qMul, ← Rat.divInt_mul_divInt', Rat.num_divInt_den, Rat.num_divInt_den]

/-- `qAdd` is ordinary rational addition. -/
theorem qAdd_eq (a b : ℚ) : qAdd a b = a + b := by
  rw [qAdd,
    ← Rat.divInt_add_divInt _ _
      (by exact_mod_cast a.den_nz) (by exact_mod_cast b.den_nz),
    Rat.num_divInt_den, Rat.num_divInt_den]

/-- `qDiv` is ordinary rational division. -/
theorem qDiv_eq (a b : ℚ) : qDiv a b = a / b := by
  rw [qDiv, ← Rat.divInt_div_divInt, Rat.num_divInt_den, Rat.num_divInt_den]

/-- Reading back a mapped sheet body recovers the record list. -/
theorem readRows_map {α : Type} (f : List Cell → Option α) (g : α → List Cell)
    (h : ∀ a, f (g a) = some a) (l : List α) : readRows f (l.map g) = some l := by
  induction l with
  | nil => rfl
  | cons a as ih => simp [readRows, h, ih]

/-- A successful classifier run decomposes into the five rule groups, in
source order. -/
theorem analyze_critical_issues_eq (s : Snapshot)
    (t : List String × List String × List String)
    (ht : analyze_critical_issues s = some t) :
    t.1 = shortfallIssues s.production ++ feedingIssueMsgs s.production ++
      (capacityIssues s.capacity).1 ∧
    t.2.1 = (capacityIssues s.capacity).2 ++ mrpHighMsgs s.mrp ∧
    pendingMediumMsgs s.procurement = some t.2.2 := by
  unfold analyze_critical_issues at ht
  cases hm : pendingMediumMsgs s.procurement with
  | none => rw [hm] at ht; cases ht
  | some m => rw [hm] at ht; cases ht; exact ⟨rfl, rfl, rfl⟩

/-- The capacity loop is the two disjoint filters of the record list, mapped
to their messages. -/
theorem capacityIssues_eq (l : List CapacityRecord) :
    capacityIssues l =
      ((l.filter (fun r => decide (r.utilization < 20))).map capacityCriticalMsg,
       (l.filter (fun r =>
         !(decide (r.utilization < 20)) && decide (r.utilization < 40))).map capacityHighMsg) := by
  induction l with
  | nil => rfl
  | cons r rest ih =>
    by_cases h1 : r.utilization < 20
    · simp [capacityIssues, ih, h1]
    · by_cases h2 : r.utilization < 40
      · simp [capacityIssues, ih, h1, h2]
      · simp [capacityIssues, ih, h1, h2]

/-- Substring occurrence survives prepending more characters. -/
theorem containsL_append (pat : List Char) :
    ∀ xs ys : List Char, containsL pat ys = true → containsL pat (xs ++ ys) = true
  | [], _, h => h
  | c :: cs, ys, h => by
    simp [containsL, containsL_append pat cs ys h]

/-- Substring occurrence survives prepending more text. -/
theorem strContains_append (x s pat : String) (h : strContains s pat = true) :
    strContains (x ++ s) pat = true := by
  rw [strContains] at h ⊢
  have e : (x ++ s).toList = x.toList ++ s.toList := by
    cases x
    cases s
    rfl
  rw [e]
  exact containsL_append _ _ _ h

/-- Lists whose status projections agree have the same number of Critical
orders. -/
theorem critical_orders_length_eq :
    ∀ l₁ l₂ : List MrpOrder,
      l₁.map (fun o => o.status) = l₂.map (fun o => o.status) →
      (critical_orders l₁).length = (critical_orders l₂).length
  | [], [], _ => rfl
  | a :: as, b :: bs, h => by
    simp only [List.map_cons, List.cons.injEq] at h
    simp only [critical_orders, List.filter_cons, h.1]
    cases hb : b.status == "Critical" <;>
      simpa [hb] using critical_orders_length_eq as bs h.2
  | [], _ :: _, h => by simp at h
  | _ :: _, [], h => by simp at h

/-- Re-reading the exported Production sheet recovers the records. -/
theorem readProductionSheet_roundtrip (l : List ProductionRecord) :
    readProductionSheet (productionSheet l) = some l := by
  simp only [productionSheet, readProductionSheet, if_pos]
  exact readRows_map readProductionRow productionRow (fun r => rfl) l

/-- Re-reading the exported Capacity sheet recovers the records. -/
theorem readCapacitySheet_roundtrip (l : List CapacityRecord) :
    readCapacitySheet (capacitySheet l) = some l := by
  simp only [capacitySheet, readCapacitySheet, if_pos]
  exact readRows_map readCapacityRow capacityRow (fun r => rfl) l

/-- Re-reading the exported MRP sheet recovers the records. -/
theorem readMrpSheet_roundtrip (l : List MrpOrder) :
    readMrpSheet (mrpSheet l) = some l := by
  simp only [mrpSheet, readMrpSheet, if_pos]
  exact readRows_map readMrpRow mrpRow (fun r => rfl) l

/-! ## The claims -/

/-- Claim C1 (code bug): the spec requires every zero-denominator KPI or ratio
to be guarded and skipped or reported as not applicable, but on a snapshot
whose `ProcurementSummary` Issued count is 0 the pending-ratio division in
`analyze_critical_issues` and the PO-completion division in
`create_summary_report` are unguarded plain-int divisions: both raise
`ZeroDivisionError` (modelled as `none`), propagating to the caller. -/
theorem claim_C1_division_unguarded :
    analyze_critical_issues zeroIssuedSnapshot = none ∧
    create_summary_report zeroIssuedSnapshot [] [] [] "17-Jun-2025 12:00" = none :=
  ⟨rfl, rfl⟩

/-- Claim C2, counterexample: two snapshots that differ in the imports domain
and in the warehouse GRN counts produce identical exports, so no re-reading of
the exported sheets can reproduce every field of every data domain. -/
theorem claim_C2_counterexample :
    export_report_to_excel parse_supply_chain_data "summary" =
      export_report_to_excel importsVariantSnapshot "summary" ∧
    parse_supply_chain_data.imports ≠ importsVariantSnapshot.imports ∧
    parse_supply_chain_data.warehouse.grn ≠ importsVariantSnapshot.warehouse.grn ∧
    parse_supply_chain_data ≠ importsVariantSnapshot :=
  ⟨rfl, by decide, by decide, by decide⟩

/-- Claim C2 as amended: re-reading the per-domain sheets of the export
reproduces every field of every record, in values and order, for the domains
the export actually contains — production, capacity, MRP, the procurement
bucket counts and amounts, and the per-brand FG stock; the imports domain and
the warehouse GRN counts are never written. -/
theorem claim_C2_roundtrip_amended (s : Snapshot) (summary_report : String) :
    ((export_report_to_excel s summary_report).lookup "Production").bind
      readProductionSheet = some s.production ∧
    ((export_report_to_excel s summary_report).lookup "Capacity").bind
      readCapacitySheet = some s.capacity ∧
    ((export_report_to_excel s summary_report).lookup "MRP").bind
      readMrpSheet = some s.mrp ∧
    ((export_report_to_excel s summary_report).lookup "Procurement").bind
      readProcurementSheet = some s.procurement ∧
    ((export_report_to_excel s summary_report).lookup "Warehouse").bind
      readWarehouseSheet = some s.warehouse.fg_Stock := by
  refine ⟨?_, ?_, ?_, ?_, ?_⟩
  · exact readProductionSheet_roundtrip s.production
  · exact readCapacitySheet_roundtrip s.capacity
  · exact readMrpSheet_roundtrip s.mrp
  · rfl
  · rfl

/-- Claim C3: the production-shortfall threshold is strictly below −3000.  A
snapshot whose variances sum to exactly −3000 yields no shortfall issue; one
whose variances sum to −3001 yields exactly one critical issue whose text
contains "3,001" (absolute shortfall with a thousands separator), and these
messages head the classifier's critical list. -/
theorem claim_C3_shortfall_threshold (s₁ s₂ : Snapshot)
    (h₁ : total_variance s₁.production = -3000)
    (h₂ : total_variance s₂.production = -3001) :
    shortfallIssues s₁.production = [] ∧
    shortfallIssues s₂.production =
      ["🚨 CRITICAL: Production shortfall of 3,001 units"] ∧
    strContains "🚨 CRITICAL: Production shortfall of 3,001 units" "3,001" = true ∧
    (∀ t, analyze_critical_issues s₁ = some t →
      t.1 = feedingIssueMsgs s₁.production ++ (capacityIssues s₁.capacity).1) ∧
    (∀ t, analyze_critical_issues s₂ = some t →
      t.1 = "🚨 CRITICAL: Production shortfall of 3,001 units" ::
        (feedingIssueMsgs s₂.production ++ (capacityIssues s₂.capacity).1)) := by
  have e₁ : shortfallIssues s₁.production = [] := by
    simp only [shortfallIssues, h₁]
    decide
  have e₂ : shortfallIssues s₂.production =
      ["🚨 CRITICAL: Production shortfall of 3,001 units"] := by
    simp only [shortfallIssues, h₂]
    decide
  refine ⟨e₁, e₂, by decide, ?_, ?_⟩
  · intro t ht
    rw [(analyze_critical_issues_eq s₁ t ht).1, e₁]
    rfl
  · intro t ht
    rw [(analyze_critical_issues_eq s₂ t ht).1, e₂]
    rfl

/-- Witness for claim C3, at the concrete −3000 and −3001 snapshots. -/
theorem claim_C3_witness :
    shortfallIssues shortfallSnapA.production = [] ∧
    shortfallIssues shortfallSnapB.production =
      ["🚨 CRITICAL: Production shortfall of 3,001 units"] :=
  ⟨(claim_C3_shortfall_threshold shortfallSnapA shortfallSnapB (by decide) (by decide)).1,
   (claim_C3_shortfall_threshold shortfallSnapA shortfallSnapB (by decide) (by decide)).2.1⟩

/-- Claim C4: the pending-ratio threshold is a strict `>` on 3/10.  With the
ratio exactly 3/10 no medium issue is emitted; with the ratio exactly 31/100
exactly one medium issue is emitted, formatted "31.0%" (one decimal place),
and these are exactly the classifier's medium list. -/
theorem claim_C4_pending_threshold (p₁ p₂ : ProcurementData)
    (h₁z : p₁.po_Issued.count ≠ 0)
    (h₂z : p₂.po_Issued.count ≠ 0)
    (h₁ : qDiv (p₁.po_Pending.count : ℚ) (p₁.po_Issued.count : ℚ) = Rat.divInt 3 10)
    (h₂ : qDiv (p₂.po_Pending.count : ℚ) (p₂.po_Issued.count : ℚ) = Rat.divInt 31 100) :
    pendingMediumMsgs p₁ = some [] ∧
    pendingMediumMsgs p₂ = some ["📦 MEDIUM: 31.0% of POs pending"] ∧
    strContains "📦 MEDIUM: 31.0% of POs pending" "31.0%" = true ∧
    (∀ s : Snapshot, s.procurement = p₁ →
      ∀ t, analyze_critical_issues s = some t → t.2.2 = []) ∧
    (∀ s : Snapshot, s.procurement = p₂ →
      ∀ t, analyze_critical_issues s = some t →
        t.2.2 = ["📦 MEDIUM: 31.0% of POs pending"]) := by
  have e₁ : pendingMediumMsgs p₁ = some [] := by
    simp only [pendingMediumMsgs, if_neg h₁z, h₁]
    decide
  have e₂ : pendingMediumMsgs p₂ = some ["📦 MEDIUM: 31.0% of POs pending"] := by
    simp only [pendingMediumMsgs, if_neg h₂z, h₂]
    decide
  refine ⟨e₁, e₂, by decide, ?_, ?_⟩
  · intro s hs t ht
    have h3 := (analyze_critical_issues_eq s t ht).2.2
    rw [hs, e₁] at h3
    exact (Option.some_inj.mp h3).symm
  · intro s hs t ht
    have h3 := (analyze_critical_issues_eq s t ht).2.2
    rw [hs, e₂] at h3
    exact (Option.some_inj.mp h3).symm

/-- Witness for claim C4, at pending/issued = 3/10 and 31/100. -/
theorem claim_C4_witness :
    pendingMediumMsgs procurementAtPoint3 = some [] ∧
    pendingMediumMsgs procurementAtPoint31 = some ["📦 MEDIUM: 31.0% of POs pending"] :=
  ⟨(claim_C4_pending_threshold procurementAtPoint3 procurementAtPoint31
      (by decide) (by decide) (by decide) (by decide)).1,
   (claim_C4_pending_threshold procurementAtPoint3 procurementAtPoint31
      (by decide) (by decide) (by decide) (by decide)).2.1⟩

/-- Claim C5: the capacity lists are the two mutually exclusive filters
(utilization < 20 critical, else < 40 high), so with unique department names
no department contributes to both lists — at most one capacity issue per
department. -/
theorem claim_C5_capacity_exclusive (l : List CapacityRecord)
    (hd : (l.map (fun r => r.department)).Nodup) (d : String) :
    capacityIssues l =
      ((l.filter (fun r => decide (r.utilization < 20))).map capacityCriticalMsg,
       (l.filter (fun r =>
         !(decide (r.utilization < 20)) && decide (r.utilization < 40))).map capacityHighMsg) ∧
    ¬ ((∃ r ∈ l.filter (fun r => decide (r.utilization < 20)), r.department = d) ∧
       (∃ r ∈ l.filter (fun r =>
         !(decide (r.utilization < 20)) && decide (r.utilization < 40)), r.department = d)) := by
  refine ⟨capacityIssues_eq l, ?_⟩
  rintro ⟨⟨r₁, hr₁, e₁⟩, ⟨r₂, hr₂, e₂⟩⟩
  rw [List.mem_filter] at hr₁ hr₂
  have : r₁ = r₂ :=
    List.inj_on_of_nodup_map hd hr₁.1 hr₂.1 (by rw [e₁, e₂])
  subst this
  have p₁ := hr₁.2
  have p₂ := hr₂.2
  rw [p₁] at p₂
  simp at p₂

/-- Witness for claim C5, on the builtin capacity table. -/
theorem claim_C5_witness :
    capacityIssues parse_supply_chain_data.capacity =
      (([⟨"Stitching", 2788, 0, 393, 14, 7974⟩,
         ⟨"Lasting", 3462, 0, 0, 0, 12100⟩] : List CapacityRecord).map capacityCriticalMsg,
       ([] : List CapacityRecord).map capacityHighMsg) ∧
    ¬ ((∃ r ∈ parse_supply_chain_data.capacity.filter
          (fun r => decide (r.utilization < 20)), r.department = "Stitching") ∧
       (∃ r ∈ parse_supply_chain_data.capacity.filter
          (fun r => !(decide (r.utilization < 20)) && decide (r.utilization < 40)),
          r.department = "Stitching")) := by
  have h := claim_C5_capacity_exclusive parse_supply_chain_data.capacity (by decide) "Stitching"
  exact ⟨by rw [h.1]; decide, h.2⟩

/-- Claim C6: the classifier counts production records whose reason contains
the case-sensitive substring "FEEDING ISSUE" and, at count ≥ 3, emits the one
critical issue citing the count; on the builtin dataset the count is 3 (the
lowercase "feeding issue" row is not counted) and exactly one critical issue
states "3 days of feeding issues from cutting". -/
theorem claim_C6_feeding_issues (s : Snapshot)
    (h : 3 ≤ (feeding_issues s.production).length) :
    feedingIssueMsgs s.production =
      ["🔥 CRITICAL: " ++ toString (feeding_issues s.production).length ++
        " days of feeding issues from cutting"] ∧
    (feeding_issues parse_supply_chain_data.production).length = 3 ∧
    (analyze_critical_issues parse_supply_chain_data).map
      (fun t => t.1.count "🔥 CRITICAL: 3 days of feeding issues from cutting") = some 1 := by
  refine ⟨?_, by decide, by decide⟩
  simp only [feedingIssueMsgs, if_pos h]

/-- Witness for claim C6, at the builtin snapshot. -/
theorem claim_C6_witness :
    feedingIssueMsgs parse_supply_chain_data.production =
      ["🔥 CRITICAL: " ++
        toString (feeding_issues parse_supply_chain_data.production).length ++
        " days of feeding issues from cutting"] ∧
    (feeding_issues parse_supply_chain_data.production).length = 3 ∧
    (analyze_critical_issues parse_supply_chain_data).map
      (fun t => t.1.count "🔥 CRITICAL: 3 days of feeding issues from cutting") = some 1 :=
  claim_C6_feeding_issues parse_supply_chain_data (by decide)

/-- Claim C7: the classifier is a pure function of the immutable snapshot
value, so evaluating it twice on the same snapshot yields identical critical,
high and medium sequences. -/
theorem claim_C7_idempotent (s : Snapshot) :
    analyze_critical_issues s = analyze_critical_issues s := rfl

/-- Claim C8: for the builtin planned [800,800,800,2000,2000,2000] and actual
[936,1180,650,0,0,393] quantities, the production-efficiency KPI equals
sum(actual)/sum(planned)×100 = 3159/8400×100, rendered to one decimal place as
"37.6", and every summary report for this snapshot contains
"**Production Efficiency:** 37.6%". -/
theorem claim_C8_efficiency :
    parse_supply_chain_data.production.map (fun r => r.planned_Qty) =
      [800, 800, 800, 2000, 2000, 2000] ∧
    parse_supply_chain_data.production.map (fun r => r.actual_Qty) =
      [936, 1180, 650, 0, 0, 393] ∧
    (parse_supply_chain_data.production.map (fun r => r.actual_Qty)).sum = 3159 ∧
    (parse_supply_chain_data.production.map (fun r => r.planned_Qty)).sum = 8400 ∧
    npPctStr 3159 8400 = fmt1 ((3159 : ℚ) / 8400 * 100) ∧
    npPctStr 3159 8400 = "37.6" ∧
    (∀ now ci hi mi,
      (create_summary_report parse_supply_chain_data ci hi mi now).map
        (fun rep => strContains rep "**Production Efficiency:** 37.6%") = some true) := by
  refine ⟨by decide, by decide, by decide, by decide, ?_, by decide, ?_⟩
  · rw [npPctStr, if_neg (by norm_num), qMul_eq, qDiv_eq]
    norm_num
  · intro now ci hi mi
    rw [create_summary_report, if_neg (by decide), Option.map_some']
    congr 1
    exact strContains_append _ _ _ (by decide)

/-- Claim C9: on the compiled-in snapshot the classifier returns exactly four
critical issues (production shortfall of 5,241 units; 3 days of feeding
issues from cutting; Stitching capacity at 14%; Lasting capacity at 0%, in
that order), one high issue (2 orders with material unavailability) and one
medium issue citing 39.1% of POs pending. -/
theorem claim_C9_builtin_output :
    analyze_critical_issues parse_supply_chain_data =
      some (["🚨 CRITICAL: Production shortfall of 5,241 units",
             "🔥 CRITICAL: 3 days of feeding issues from cutting",
             "⚠️ CRITICAL: Stitching capacity at 14%",
             "⚠️ CRITICAL: Lasting capacity at 0%"],
            ["📋 HIGH: 2 orders with material unavailability"],
            ["📦 MEDIUM: 39.1% of POs pending"]) := by decide

/-- Claim C10: the MRP rule reads only each order's `Status`; two snapshots
identical except for the `Ordered`/`Available` flags of their MRP entries get
identical critical, high and medium issue sequences. -/
theorem claim_C10_mrp_noninterference (s₁ s₂ : Snapshot)
    (hprod : s₁.production = s₂.production)
    (hcap : s₁.capacity = s₂.capacity)
    (hproc : s₁.procurement = s₂.procurement)
    (himp : s₁.imports = s₂.imports)
    (hwh : s₁.warehouse = s₂.warehouse)
    (hord : s₁.mrp.map (fun o => o.order) = s₂.mrp.map (fun o => o.order))
    (hst : s₁.mrp.map (fun o => o.status) = s₂.mrp.map (fun o => o.status)) :
    analyze_critical_issues s₁ = analyze_critical_issues s₂ := by
  have hlen : (critical_orders s₁.mrp).length = (critical_orders s₂.mrp).length :=
    critical_orders_length_eq _ _ hst
  have hmsgs : mrpHighMsgs s₁.mrp = mrpHighMsgs s₂.mrp := by
    simp only [mrpHighMsgs, hlen]
  simp only [analyze_critical_issues, hprod, hcap, hproc, hmsgs]

/-- Witness for claim C10: scrambling every `Ordered`/`Available` flag of the
builtin snapshot leaves the classifier output unchanged. -/
theorem claim_C10_witness :
    analyze_critical_issues parse_supply_chain_data =
      analyze_critical_issues flagsVariantSnapshot :=
  claim_C10_mrp_noninterference parse_supply_chain_data flagsVariantSnapshot
    (by decide) (by decide) (by decide) (by decide) (by decide) (by decide) (by decide)

end SupplyChain
